import Mathlib

/-! # terraform-kind: the `kind_cluster` resource adapter

A shallow embedding of `internal/provider/cluster_resource.go` and of the
constants of `internal/provider/provider.go`.

* Go strings are Lean strings; `fmt.Sprintf` with `%s` verbs is string
  concatenation and `strings.Split` with a one-character separator is
  `strings.Split` below.
* `types.String` is `types.TfString` and keeps its three states (null, unknown, known value).
* The KIND library (`sigs.k8s.io/kind/pkg/cluster`) is a parameter: a record of
  three operations over an arbitrary library state. Every call made through it
  is appended to a call log, so that "calls once" and "does not call" are
  statements about the log.
* A handler receives the response it has to fill and returns the filled
  response together with the new world (library state and call log). The
  framework hands `Read`, `Update` and `Delete` a response that carries the
  prior state, and `Create` and `ImportState` one with the null state.
* The adapter validates neither name nor node version; where a property rests
  on the validation the library does, that validation is the explicit
  hypothesis `cluster.Provider.ValidatesInput`.
-/

namespace Kind

/-! ## Go standard library: `time`, `strings` -/

/-- Go `time.Duration`: a count of nanoseconds. -/
abbrev time.Duration := Int

def time.Nanosecond : time.Duration := 1
def time.Microsecond : time.Duration := 1000 * time.Nanosecond
def time.Millisecond : time.Duration := 1000 * time.Microsecond
def time.Second : time.Duration := 1000 * time.Millisecond
def time.Minute : time.Duration := 60 * time.Second

/-- Pieces of a character sequence cut at every occurrence of `sep`: the piece
before the first separator, and the list of the pieces after it. -/
def strings.splitChars (sep : Char) : List Char → List Char × List (List Char)
  | [] => ([], [])
  | c :: cs =>
    let r := strings.splitChars sep cs
    if c = sep then ([], r.1 :: r.2) else (c :: r.1, r.2)

/-- Go `strings.Split(s, sep)` for a separator of one character: all the
substrings of `s` between separators, in order; an `s` without separator gives
the one-element list `[s]`. -/
def strings.Split (s : String) (sep : Char) : List String :=
  let r := strings.splitChars sep s.data
  (r.1 :: r.2).map String.mk

/-! ## terraform-plugin-framework: `types`, `diag`, `tfsdk`, `resource` -/

/-- The framework type `types.String`: null, unknown, or a known value. -/
inductive types.TfString where
  | null : types.TfString
  | unknown : types.TfString
  | value (s : String) : types.TfString
  deriving DecidableEq, Repr

/-- The framework constructor `types.StringValue(s)`. -/
def types.StringValue (s : String) : types.TfString := types.TfString.value s

/-- The framework method `ValueString()`: the known value, or `""` when the
string is null or unknown. -/
def types.TfString.ValueString : types.TfString → String
  | types.TfString.value s => s
  | _ => ""

inductive diag.Severity where
  | error : diag.Severity
  | warning : diag.Severity
  deriving DecidableEq, Repr

/-- One diagnostic; `path` is the attribute path of an attribute diagnostic and
is `none` for the diagnostics built by `AddError`. -/
structure diag.Diagnostic where
  severity : diag.Severity
  summary : String
  detail : String
  path : Option String
  deriving DecidableEq, Repr

abbrev diag.Diagnostics := List diag.Diagnostic

def diag.NewErrorDiagnostic (summary detail : String) : diag.Diagnostic :=
  { severity := diag.Severity.error, summary := summary, detail := detail, path := none }

/-- The framework method `Diagnostics.HasError()`. -/
def diag.HasError (diags : diag.Diagnostics) : Bool :=
  diags.any (fun d => decide (d.severity = diag.Severity.error))

/-- The framework method `Diagnostics.Append(in...)`: appends, in order, each
incoming diagnostic that the collection does not already contain. -/
def diag.Append (diags : diag.Diagnostics) (incoming : diag.Diagnostics) : diag.Diagnostics :=
  incoming.foldl (fun acc d => if d ∈ acc then acc else acc ++ [d]) diags

/-- The framework method `Diagnostics.AddError(summary, detail)`. -/
def diag.AddError (diags : diag.Diagnostics) (summary detail : String) : diag.Diagnostics :=
  diag.Append diags [diag.NewErrorDiagnostic summary detail]

/-- ClusterResourceModel describes the resource data model. -/
structure ClusterResourceModel where
  Id : types.TfString
  Name : types.TfString
  NodeVersion : types.TfString
  Kubeconfig : types.TfString
  deriving DecidableEq, Repr

/-- What `req.Plan.Get(ctx, &data)` or `req.State.Get(ctx, &data)` yields: the
diagnostics the framework returns and the model it decoded into `data`. -/
structure tfsdk.Decoded where
  diags : diag.Diagnostics
  data : ClusterResourceModel
  deriving DecidableEq, Repr

/-- A Terraform state as a response carries it: `none` is the null state, and
`some m` a state holding the four attributes of `m`. -/
abbrev tfsdk.State := Option ClusterResourceModel

/-- The framework method `State.Set(ctx, &data)` for a model whose fields match
the schema of four string attributes: the state becomes `data` and no
diagnostic is returned. -/
def tfsdk.State.Set (_s : tfsdk.State) (data : ClusterResourceModel) :
    diag.Diagnostics × tfsdk.State :=
  ([], some data)

/-- The framework method `State.SetAttribute(ctx, path.Root("id"), v)`: the id
attribute becomes the known string `v`; the other attributes keep their value,
and are null when the state was null. -/
def tfsdk.State.SetAttributeId (s : tfsdk.State) (v : String) :
    diag.Diagnostics × tfsdk.State :=
  match s with
  | none =>
    ([], some { Id := types.StringValue v, Name := types.TfString.null,
                NodeVersion := types.TfString.null, Kubeconfig := types.TfString.null })
  | some m => ([], some { m with Id := types.StringValue v })

structure resource.CreateRequest where
  Plan : tfsdk.Decoded

structure resource.ReadRequest where
  State : tfsdk.Decoded

structure resource.UpdateRequest where
  Plan : tfsdk.Decoded

structure resource.DeleteRequest where
  State : tfsdk.Decoded

structure resource.ImportStateRequest where
  ID : String

/-- The two fields the handlers use of `resource.CreateResponse`,
`ReadResponse`, `UpdateResponse`, `DeleteResponse` and `ImportStateResponse`. -/
structure resource.Response where
  Diagnostics : diag.Diagnostics
  State : tfsdk.State
  deriving DecidableEq, Repr

/-- The framework function `resource.ImportStatePassthroughID` at the
attribute path `id`. -/
def resource.ImportStatePassthroughID (req : resource.ImportStateRequest)
    (resp : resource.Response) : resource.Response :=
  let r := tfsdk.State.SetAttributeId resp.State req.ID
  { Diagnostics := diag.Append resp.Diagnostics r.1, State := r.2 }

/-! ## The KIND library: `sigs.k8s.io/kind/pkg/cluster` -/

/-- The two create options the adapter builds. -/
inductive cluster.CreateOption where
  | CreateWithWaitForReady (d : time.Duration) : cluster.CreateOption
  | CreateWithNodeImage (image : String) : cluster.CreateOption
  deriving DecidableEq, Repr

/-- Go `error`: `none` is `nil`, `some msg` an error whose `Error()` is `msg`. -/
abbrev GoError := Option String

/-- The surface of `cluster.Provider` the adapter consumes, over a library
state `σ` (the container runtime the library drives). -/
structure cluster.Provider (σ : Type) where
  Create : σ → String → List cluster.CreateOption → σ × GoError
  KubeConfig : σ → String → Bool → σ × (String × GoError)
  Delete : σ → String → String → σ × GoError

/-- A call made to the library. -/
inductive Call where
  | Create (name : String) (opts : List cluster.CreateOption) : Call
  | KubeConfig (name : String) (internal : Bool) : Call
  | Delete (name : String) (explicitKubeconfigPath : String) : Call
  deriving DecidableEq, Repr

/-- The library state together with the log of the calls made so far. -/
structure World (σ : Type) where
  lib : σ
  calls : List Call

/-- Run `provider.Create(name, opts...)` and log the call. -/
def World.Create {σ : Type} (p : cluster.Provider σ) (w : World σ) (name : String)
    (opts : List cluster.CreateOption) : GoError × World σ :=
  let r := p.Create w.lib name opts
  (r.2, { lib := r.1, calls := w.calls ++ [Call.Create name opts] })

/-- Run `provider.KubeConfig(name, internal)` and log the call. -/
def World.KubeConfig {σ : Type} (p : cluster.Provider σ) (w : World σ) (name : String)
    (internal : Bool) : (String × GoError) × World σ :=
  let r := p.KubeConfig w.lib name internal
  (r.2, { lib := r.1, calls := w.calls ++ [Call.KubeConfig name internal] })

/-- Run `provider.Delete(name, explicitKubeconfigPath)` and log the call. -/
def World.Delete {σ : Type} (p : cluster.Provider σ) (w : World σ) (name : String)
    (explicitKubeconfigPath : String) : GoError × World σ :=
  let r := p.Delete w.lib name explicitKubeconfigPath
  (r.2, { lib := r.1, calls := w.calls ++ [Call.Delete name explicitKubeconfigPath] })

/-! ## `provider.go` and `cluster_resource.go` -/

def defaultCreateTimeout : time.Duration := time.Minute * 5

/-- The slice `opts` that `createCluster` builds from the model. -/
def createCluster.opts (data : ClusterResourceModel) : List cluster.CreateOption :=
  [cluster.CreateOption.CreateWithWaitForReady defaultCreateTimeout,
   cluster.CreateOption.CreateWithNodeImage ("kindest/node:" ++ data.NodeVersion.ValueString)]

/-- The function `createCluster(data, diags)`: returns the model and the
diagnostics as the call leaves them, and the new world. -/
def createCluster {σ : Type} (p : cluster.Provider σ) (w : World σ)
    (data : ClusterResourceModel) (diags : diag.Diagnostics) :
    ClusterResourceModel × diag.Diagnostics × World σ :=
  let opts := createCluster.opts data
  let r := World.Create p w data.Name.ValueString opts
  match r.1 with
  | some err => (data, diag.AddError diags "failed to create cluster" err, r.2)
  | none =>
    let id := data.Name.ValueString ++ "/" ++ data.NodeVersion.ValueString
    let data1 := { data with Id := types.StringValue id }
    let k := World.KubeConfig p r.2 data1.Name.ValueString false
    match k.1.2 with
    | some err => (data1, diag.AddError diags "failed to retrieve cluster kubeconfig" err, k.2)
    | none => ({ data1 with Kubeconfig := types.StringValue k.1.1 }, diags, k.2)

/-- The function `deleteCluster(data, diags)`. -/
def deleteCluster {σ : Type} (p : cluster.Provider σ) (w : World σ)
    (data : ClusterResourceModel) (diags : diag.Diagnostics) :
    diag.Diagnostics × World σ :=
  let r := World.Delete p w data.Name.ValueString ""
  match r.1 with
  | some err => (diag.AddError diags "failed to delete cluster" err, r.2)
  | none => (diags, r.2)

/-- The method `ClusterResource.Create`. -/
def Create {σ : Type} (p : cluster.Provider σ) (w : World σ) (req : resource.CreateRequest)
    (resp : resource.Response) : resource.Response × World σ :=
  let data := req.Plan.data
  let resp1 := { resp with Diagnostics := diag.Append resp.Diagnostics req.Plan.diags }
  if diag.HasError resp1.Diagnostics then (resp1, w)
  else
    let c := createCluster p w data resp1.Diagnostics
    let resp2 := { resp1 with Diagnostics := c.2.1 }
    if diag.HasError resp2.Diagnostics then (resp2, c.2.2)
    else
      let s := tfsdk.State.Set resp2.State c.1
      ({ Diagnostics := diag.Append resp2.Diagnostics s.1, State := s.2 }, c.2.2)

/-- The method `ClusterResource.Read`. -/
def Read {σ : Type} (p : cluster.Provider σ) (w : World σ) (req : resource.ReadRequest)
    (resp : resource.Response) : resource.Response × World σ :=
  let data := req.State.data
  let resp1 := { resp with Diagnostics := diag.Append resp.Diagnostics req.State.diags }
  if diag.HasError resp1.Diagnostics then (resp1, w)
  else
    let split := strings.Split data.Id.ValueString '/'
    match split with
    | [s0, s1] =>
      let data1 := { data with Name := types.StringValue s0 }
      let data2 := { data1 with NodeVersion := types.StringValue s1 }
      let k := World.KubeConfig p w data2.Name.ValueString false
      match k.1.2 with
      | some err =>
        ({ resp1 with Diagnostics :=
             diag.AddError resp1.Diagnostics "failed to retrieve cluster kubeconfig" err }, k.2)
      | none =>
        let data3 := { data2 with Kubeconfig := types.StringValue k.1.1 }
        let s := tfsdk.State.Set resp1.State data3
        ({ Diagnostics := diag.Append resp1.Diagnostics s.1, State := s.2 }, k.2)
    | _ =>
      ({ resp1 with Diagnostics :=
           diag.AddError resp1.Diagnostics "failed to parse cluster id" data.Id.ValueString }, w)

/-- The method `ClusterResource.Update`. -/
def Update {σ : Type} (w : World σ) (req : resource.UpdateRequest)
    (resp : resource.Response) : resource.Response × World σ :=
  let data := req.Plan.data
  let resp1 := { resp with Diagnostics := diag.Append resp.Diagnostics req.Plan.diags }
  if diag.HasError resp1.Diagnostics then (resp1, w)
  else
    let s := tfsdk.State.Set resp1.State data
    ({ Diagnostics := diag.Append resp1.Diagnostics s.1, State := s.2 }, w)

/-- The method `ClusterResource.Delete`. -/
def Delete {σ : Type} (p : cluster.Provider σ) (w : World σ) (req : resource.DeleteRequest)
    (resp : resource.Response) : resource.Response × World σ :=
  let data := req.State.data
  let resp1 := { resp with Diagnostics := diag.Append resp.Diagnostics req.State.diags }
  if diag.HasError resp1.Diagnostics then (resp1, w)
  else
    let d := deleteCluster p w data resp1.Diagnostics
    ({ resp1 with Diagnostics := d.1 }, d.2)

/-- The method `ClusterResource.ImportState`. -/
def ImportState (req : resource.ImportStateRequest) (resp : resource.Response) :
    resource.Response :=
  resource.ImportStatePassthroughID req resp

/-! ## What the adapter relies on in the library, and a small library instance -/

/-- The input validation of the KIND library, as far as the separator goes:
a create call with the options the adapter passes succeeds only for a cluster
name without `/` (KIND cluster names match `^[a-z0-9.-]+$`) and for a node
image `kindest/node:<tag>` whose tag has no `/` (an image tag cannot hold
one). -/
def cluster.Provider.ValidatesInput {σ : Type} (p : cluster.Provider σ) : Prop :=
  ∀ (s : σ) (name V : String) (d : time.Duration),
    (p.Create s name [cluster.CreateOption.CreateWithWaitForReady d,
        cluster.CreateOption.CreateWithNodeImage ("kindest/node:" ++ V)]).2 = none →
      '/' ∉ name.data ∧ '/' ∉ V.data

/-- The KIND default: the empty cluster name stands for the cluster `kind`. -/
def sample.defaultName (name : String) : String := if name = "" then "kind" else name

/-- A character of `^[a-z0-9.-]+$`. -/
def sample.validNameChar (c : Char) : Bool :=
  c.isLower || c.isDigit || c == '.' || c == '-'

def sample.validName (name : String) : Bool :=
  !name.data.isEmpty && name.data.all sample.validNameChar

/-- A character of an image tag. -/
def sample.validTagChar (c : Char) : Bool :=
  c.isAlphanum || c == '_' || c == '.' || c == '-'

/-- An image `kindest/node:<tag>` with a well-formed, non-empty tag. -/
def sample.validImage (img : String) : Bool :=
  img.data.take 13 == "kindest/node:".data
    && !(img.data.drop 13).isEmpty && (img.data.drop 13).all sample.validTagChar

/-- The node image the options select: the last `CreateWithNodeImage`. -/
def sample.nodeImage : List cluster.CreateOption → Option String
  | [] => none
  | cluster.CreateOption.CreateWithNodeImage img :: rest =>
    match sample.nodeImage rest with
    | some later => some later
    | none => some img
  | cluster.CreateOption.CreateWithWaitForReady _ :: rest => sample.nodeImage rest

/-- A library whose state is the list of the names of the existing clusters.
`Create` fails on a name outside `^[a-z0-9.-]+$`, on a name that exists and on
an ill-formed node image; `KubeConfig` fails on a name that does not exist;
`Delete` removes the cluster; the empty name stands for `kind` throughout. -/
def sampleProvider : cluster.Provider (List String) where
  Create s name opts :=
    if sample.validName (sample.defaultName name) = false then
      (s, some "not a valid cluster name, cluster names must match ^[a-z0-9.-]+$")
    else if sample.defaultName name ∈ s then
      (s, some "node(s) already exist for a cluster with the name")
    else
      match sample.nodeImage opts with
      | none => (sample.defaultName name :: s, none)
      | some img =>
        if sample.validImage img then (sample.defaultName name :: s, none)
        else (s, some "failed to pull image")
  KubeConfig s name _ :=
    if sample.defaultName name ∈ s then (s, ("kubeconfig of " ++ sample.defaultName name, none))
    else (s, ("", some "could not locate any control plane nodes"))
  Delete s name _ := (s.erase (sample.defaultName name), none)

/-- The world with no cluster and no call made. -/
def emptyWorld : World (List String) := { lib := [], calls := [] }

/-- The plan Terraform builds for a configuration `name = N`,
`node_version = V`: the computed attributes are unknown. -/
def planOf (N V : String) : ClusterResourceModel :=
  { Id := types.TfString.unknown, Name := types.StringValue N,
    NodeVersion := types.StringValue V, Kubeconfig := types.TfString.unknown }

/-- The model of a cluster `N` at version `V` with kubeconfig `k`, all four
attributes known. -/
def knownModel (N V k : String) : ClusterResourceModel :=
  { Id := types.StringValue (N ++ "/" ++ V), Name := types.StringValue N,
    NodeVersion := types.StringValue V, Kubeconfig := types.StringValue k }

/-- A response as the framework hands it to a handler: no diagnostic, and the
given state. -/
def emptyResponse (s : tfsdk.State) : resource.Response := { Diagnostics := [], State := s }

/-! ## Lemmas on `types.TfString` -/

theorem types.ValueString_StringValue (s : String) :
    (types.StringValue s).ValueString = s := rfl

/-! ## Lemmas on `strings.Split` -/

theorem strings.splitChars_length (sep : Char) (l : List Char) :
    (strings.splitChars sep l).2.length = l.count sep := by
  induction l with
  | nil => simp [strings.splitChars]
  | cons c cs ih =>
    by_cases h : c = sep
    · subst h
      simp [strings.splitChars, ih]
    · have h2 : (c == sep) = false := by simpa using h
      simp [strings.splitChars, h, ih, List.count_cons, h2]

theorem strings.splitChars_not_mem (sep : Char) (l : List Char) (h : sep ∉ l) :
    strings.splitChars sep l = (l, []) := by
  induction l with
  | nil => simp [strings.splitChars]
  | cons c cs ih =>
    have hc : c ≠ sep := fun e => h (by simp [e])
    have hcs : sep ∉ cs := fun e => h (by simp [e])
    simp [strings.splitChars, hc, ih hcs]

theorem strings.splitChars_append (sep : Char) (a b : List Char) (h : sep ∉ a) :
    strings.splitChars sep (a ++ sep :: b)
      = (a, (strings.splitChars sep b).1 :: (strings.splitChars sep b).2) := by
  induction a with
  | nil => simp [strings.splitChars]
  | cons c cs ih =>
    have hc : c ≠ sep := fun e => h (by simp [e])
    have hcs : sep ∉ cs := fun e => h (by simp [e])
    simp [strings.splitChars, hc, ih hcs]

theorem strings.Split_length (s : String) (sep : Char) :
    (strings.Split s sep).length = s.data.count sep + 1 := by
  simp [strings.Split, strings.splitChars_length]

/-- The characters of the id that `createCluster` composes. -/
theorem compose_data (N V : String) : (N ++ "/" ++ V).data = N.data ++ '/' :: V.data := by
  have h : ("/" : String).data = ['/'] := rfl
  simp [String.data_append, h]

theorem strings.Split_compose (N V : String) (hN : '/' ∉ N.data) (hV : '/' ∉ V.data) :
    strings.Split (N ++ "/" ++ V) '/' = [N, V] := by
  simp [strings.Split, compose_data, strings.splitChars_append _ _ _ hN,
    strings.splitChars_not_mem _ _ hV]

theorem compose_injective (N1 V1 N2 V2 : String) (h1 : '/' ∉ N1.data) (h2 : '/' ∉ N2.data)
    (h : N1 ++ "/" ++ V1 = N2 ++ "/" ++ V2) : N1 = N2 ∧ V1 = V2 := by
  have hd := congrArg String.data h
  rw [compose_data, compose_data] at hd
  have hsp := congrArg (strings.splitChars '/') hd
  rw [strings.splitChars_append _ _ _ h1, strings.splitChars_append _ _ _ h2] at hsp
  have hN : N1.data = N2.data := congrArg Prod.fst hsp
  rw [hN] at hd
  have hV : V1.data = V2.data := List.cons_injective (List.append_cancel_left hd)
  exact ⟨String.ext hN, String.ext hV⟩

theorem sample.validName_no_separator (name : String)
    (h : sample.validName (sample.defaultName name) = true) : '/' ∉ name.data := by
  by_cases he : name = ""
  · subst he
    decide
  · simp only [sample.defaultName, he, if_false, sample.validName, Bool.and_eq_true,
      List.all_eq_true] at h
    intro hm
    have := h.2 '/' hm
    revert this
    decide

theorem sample.validImage_no_separator (V : String)
    (h : sample.validImage ("kindest/node:" ++ V) = true) : '/' ∉ V.data := by
  have hd : ("kindest/node:" ++ V).data.drop 13 = V.data := by
    have hl : ("kindest/node:" : String).data
        = ['k', 'i', 'n', 'd', 'e', 's', 't', '/', 'n', 'o', 'd', 'e', ':'] := by decide
    rw [String.data_append, hl]
    rfl
  simp only [sample.validImage, hd, Bool.and_eq_true, List.all_eq_true] at h
  intro hm
  have := h.2 '/' hm
  revert this
  decide

theorem sampleProvider_validates : cluster.Provider.ValidatesInput sampleProvider := by
  intro s name V d h
  simp only [sampleProvider, sample.nodeImage] at h
  by_cases hv : sample.validName (sample.defaultName name) = false
  · simp [hv] at h
  · have hv2 : sample.validName (sample.defaultName name) = true := by simpa using hv
    by_cases hex : sample.defaultName name ∈ s
    · simp [hv2, hex] at h
    · by_cases hi : sample.validImage ("kindest/node:" ++ V) = true
      · exact ⟨sample.validName_no_separator name hv2, sample.validImage_no_separator V hi⟩
      · simp [hv2, hex, hi] at h

/-! ## Lemmas on diagnostics -/

theorem diag.HasError_concat (a b : diag.Diagnostics) :
    diag.HasError (a ++ b) = (diag.HasError a || diag.HasError b) := by
  simp [diag.HasError, List.any_append]

theorem diag.HasError_Append (a b : diag.Diagnostics) :
    diag.HasError (diag.Append a b) = (diag.HasError a || diag.HasError b) := by
  induction b generalizing a with
  | nil => simp [diag.Append, diag.HasError]
  | cons d ds ih =>
    have step : diag.Append a (d :: ds)
        = diag.Append (if d ∈ a then a else a ++ [d]) ds := by
      simp [diag.Append]
    rw [step, ih]
    by_cases hd : d ∈ a
    · simp only [hd, if_true]
      by_cases he : d.severity = diag.Severity.error
      · have : diag.HasError a = true := by
          simp only [diag.HasError, List.any_eq_true]
          exact ⟨d, hd, by simp [he]⟩
        simp [this]
      · simp [diag.HasError, he]
    · simp only [hd, if_false]
      simp [diag.HasError, List.any_append, Bool.or_assoc]

theorem diag.Append_nil (a : diag.Diagnostics) : diag.Append a [] = a := by
  simp [diag.Append]

theorem diag.AddError_of_no_error (diags : diag.Diagnostics) (summary detail : String)
    (h : diag.HasError diags = false) :
    diag.AddError diags summary detail
      = diags ++ [diag.NewErrorDiagnostic summary detail] := by
  have hn : diag.NewErrorDiagnostic summary detail ∉ diags := by
    intro hm
    have : diag.HasError diags = true := by
      simp only [diag.HasError, List.any_eq_true]
      exact ⟨_, hm, by simp [diag.NewErrorDiagnostic]⟩
    rw [h] at this
    exact Bool.noConfusion this
  simp [diag.AddError, diag.Append, hn]

theorem diag.not_mem_of_no_error (diags : diag.Diagnostics) (summary detail : String)
    (h : diag.HasError diags = false) :
    diag.NewErrorDiagnostic summary detail ∉ diags := by
  intro hm
  have : diag.HasError diags = true := by
    simp only [diag.HasError, List.any_eq_true]
    exact ⟨_, hm, by simp [diag.NewErrorDiagnostic]⟩
  rw [h] at this
  exact Bool.noConfusion this

theorem diag.HasError_concat_error (diags : diag.Diagnostics) (summary detail : String) :
    diag.HasError (diags ++ [diag.NewErrorDiagnostic summary detail]) = true := by
  rw [diag.HasError_concat]
  simp [diag.HasError, diag.NewErrorDiagnostic]

/-! ## The three outcomes of `createCluster` -/

theorem createCluster_of_create_error {σ : Type} (p : cluster.Provider σ) (w : World σ)
    (data : ClusterResourceModel) (diags : diag.Diagnostics) (err : String)
    (hc : (p.Create w.lib data.Name.ValueString (createCluster.opts data)).2 = some err) :
    createCluster p w data diags
      = (data, diag.AddError diags "failed to create cluster" err,
          (World.Create p w data.Name.ValueString (createCluster.opts data)).2) := by
  simp [createCluster, World.Create, hc]

theorem createCluster_of_fetch_error {σ : Type} (p : cluster.Provider σ) (w : World σ)
    (data : ClusterResourceModel) (diags : diag.Diagnostics) (err : String)
    (hc : (p.Create w.lib data.Name.ValueString (createCluster.opts data)).2 = none)
    (hk : (p.KubeConfig (p.Create w.lib data.Name.ValueString (createCluster.opts data)).1
            data.Name.ValueString false).2.2 = some err) :
    createCluster p w data diags
      = ({ data with Id := types.StringValue
                      (data.Name.ValueString ++ "/" ++ data.NodeVersion.ValueString) },
          diag.AddError diags "failed to retrieve cluster kubeconfig" err,
          (World.KubeConfig p (World.Create p w data.Name.ValueString
            (createCluster.opts data)).2 data.Name.ValueString false).2) := by
  simp [createCluster, World.Create, World.KubeConfig, hc, hk]

theorem createCluster_of_success {σ : Type} (p : cluster.Provider σ) (w : World σ)
    (data : ClusterResourceModel) (diags : diag.Diagnostics)
    (hc : (p.Create w.lib data.Name.ValueString (createCluster.opts data)).2 = none)
    (hk : (p.KubeConfig (p.Create w.lib data.Name.ValueString (createCluster.opts data)).1
            data.Name.ValueString false).2.2 = none) :
    createCluster p w data diags
      = ({ data with
            Id := types.StringValue
                    (data.Name.ValueString ++ "/" ++ data.NodeVersion.ValueString),
            Kubeconfig := types.StringValue
                    (p.KubeConfig (p.Create w.lib data.Name.ValueString
                      (createCluster.opts data)).1 data.Name.ValueString false).2.1 },
          diags,
          (World.KubeConfig p (World.Create p w data.Name.ValueString
            (createCluster.opts data)).2 data.Name.ValueString false).2) := by
  simp [createCluster, World.Create, World.KubeConfig, hc, hk]

theorem World.Create_calls {σ : Type} (p : cluster.Provider σ) (w : World σ) (name : String)
    (opts : List cluster.CreateOption) :
    (World.Create p w name opts).2.calls = w.calls ++ [Call.Create name opts] := rfl

theorem World.KubeConfig_calls {σ : Type} (p : cluster.Provider σ) (w : World σ)
    (name : String) (internal : Bool) :
    (World.KubeConfig p w name internal).2.calls = w.calls ++ [Call.KubeConfig name internal] :=
  rfl

/-! ## The outcomes of `Read` -/

theorem strings.Split_two_parts (s : String) (h : s.data.count '/' = 1) :
    ∃ a b : String, strings.Split s '/' = [a, b] := by
  have hl := strings.Split_length s '/'
  rw [h] at hl
  rcases hs : strings.Split s '/' with _ | ⟨a, _ | ⟨b, _ | ⟨c, t⟩⟩⟩
  · rw [hs] at hl; simp at hl
  · rw [hs] at hl; simp at hl
  · exact ⟨a, b, rfl⟩
  · rw [hs] at hl; simp at hl

theorem Read_of_decode_error {σ : Type} (p : cluster.Provider σ) (w : World σ)
    (req : resource.ReadRequest) (resp : resource.Response)
    (hdec : diag.HasError (diag.Append resp.Diagnostics req.State.diags) = true) :
    Read p w req resp
      = ({ Diagnostics := diag.Append resp.Diagnostics req.State.diags,
           State := resp.State }, w) := by
  simp only [Read, hdec, if_true]

theorem Read_of_parse_error {σ : Type} (p : cluster.Provider σ) (w : World σ)
    (req : resource.ReadRequest) (resp : resource.Response)
    (hdec : diag.HasError (diag.Append resp.Diagnostics req.State.diags) = false)
    (hs : req.State.data.Id.ValueString.data.count '/' ≠ 1) :
    Read p w req resp
      = ({ Diagnostics := diag.Append resp.Diagnostics req.State.diags
             ++ [diag.NewErrorDiagnostic "failed to parse cluster id"
                   req.State.data.Id.ValueString],
           State := resp.State }, w) := by
  have hl := strings.Split_length req.State.data.Id.ValueString '/'
  simp only [Read, hdec, diag.AddError_of_no_error _ _ _ hdec]
  rcases hsp : strings.Split req.State.data.Id.ValueString '/' with _ | ⟨a, _ | ⟨b, _ | ⟨c, t⟩⟩⟩
  · simp
  · simp
  · rw [hsp] at hl
    simp at hl
    exact absurd hl hs
  · simp

theorem Read_of_fetch_error {σ : Type} (p : cluster.Provider σ) (w : World σ)
    (req : resource.ReadRequest) (resp : resource.Response) (a b err : String)
    (hdec : diag.HasError (diag.Append resp.Diagnostics req.State.diags) = false)
    (hs : strings.Split req.State.data.Id.ValueString '/' = [a, b])
    (hk : (p.KubeConfig w.lib a false).2.2 = some err) :
    Read p w req resp
      = ({ Diagnostics := diag.Append resp.Diagnostics req.State.diags
             ++ [diag.NewErrorDiagnostic "failed to retrieve cluster kubeconfig" err],
           State := resp.State }, (World.KubeConfig p w a false).2) := by
  simp [Read, hdec, hs, diag.AddError_of_no_error _ _ _ hdec, World.KubeConfig, hk,
    types.ValueString_StringValue]

theorem Read_of_success {σ : Type} (p : cluster.Provider σ) (w : World σ)
    (req : resource.ReadRequest) (resp : resource.Response) (a b : String)
    (hdec : diag.HasError (diag.Append resp.Diagnostics req.State.diags) = false)
    (hs : strings.Split req.State.data.Id.ValueString '/' = [a, b])
    (hk : (p.KubeConfig w.lib a false).2.2 = none) :
    Read p w req resp
      = ({ Diagnostics := diag.Append resp.Diagnostics req.State.diags,
           State := some { Id := req.State.data.Id, Name := types.StringValue a,
                           NodeVersion := types.StringValue b,
                           Kubeconfig := types.StringValue (p.KubeConfig w.lib a false).2.1 } },
          (World.KubeConfig p w a false).2) := by
  simp [Read, hdec, hs, World.KubeConfig, hk, tfsdk.State.Set, diag.Append_nil,
    types.ValueString_StringValue]

/-! ## The handlers -/

/-- C1: when the library's create call and the kubeconfig fetch that follows
both succeed, `createCluster` leaves the diagnostics as they were and returns
the model with id `N ++ "/" ++ V`, name `N` and node_version `V` unchanged, and
kubeconfig the string `k` the library returned for `N`; `Create`, on a plan
that decodes, writes exactly that model to state. -/
theorem createCluster_success_model {σ : Type} (p : cluster.Provider σ) (w : World σ)
    (N V k : String) (i kc : types.TfString) (diags : diag.Diagnostics)
    (hc : (p.Create w.lib N (createCluster.opts
            { Id := i, Name := types.StringValue N, NodeVersion := types.StringValue V,
              Kubeconfig := kc })).2 = none)
    (hk : (p.KubeConfig (p.Create w.lib N (createCluster.opts
            { Id := i, Name := types.StringValue N, NodeVersion := types.StringValue V,
              Kubeconfig := kc })).1 N false).2 = (k, none)) :
    (createCluster p w
        { Id := i, Name := types.StringValue N, NodeVersion := types.StringValue V,
          Kubeconfig := kc } diags).1
        = { Id := types.StringValue (N ++ "/" ++ V), Name := types.StringValue N,
            NodeVersion := types.StringValue V, Kubeconfig := types.StringValue k }
      ∧ (createCluster p w
          { Id := i, Name := types.StringValue N, NodeVersion := types.StringValue V,
            Kubeconfig := kc } diags).2.1 = diags
      ∧ ∀ (dg : diag.Diagnostics) (resp : resource.Response),
          diag.HasError (diag.Append resp.Diagnostics dg) = false →
          (Create p w
              { Plan := { diags := dg, data :=
                  { Id := i, Name := types.StringValue N, NodeVersion := types.StringValue V,
                    Kubeconfig := kc } } } resp).1.State
            = some { Id := types.StringValue (N ++ "/" ++ V), Name := types.StringValue N,
                     NodeVersion := types.StringValue V, Kubeconfig := types.StringValue k } := by
  have hk2 := congrArg Prod.snd hk
  have hk1 := congrArg Prod.fst hk
  simp only at hk1 hk2
  have e := fun g => createCluster_of_success p w
    { Id := i, Name := types.StringValue N, NodeVersion := types.StringValue V,
      Kubeconfig := kc } g hc hk2
  refine ⟨?_, ?_, ?_⟩
  · rw [e]
    simp [types.TfString.ValueString, types.StringValue] at hk1 ⊢
    exact hk1
  · rw [e]
  · intro dg resp hdec
    simp only [Create, hdec, e, tfsdk.State.Set]
    simp [types.TfString.ValueString, types.StringValue] at hk1 ⊢
    exact hk1

/-- C1 on a concrete input: name `test-cluster`, node version `v1.26.0`, on the
sample library with no cluster. -/
theorem createCluster_success_model_witness :
    (createCluster sampleProvider emptyWorld (planOf "test-cluster" "v1.26.0") []).1
      = { Id := types.StringValue ("test-cluster" ++ "/" ++ "v1.26.0"),
          Name := types.StringValue "test-cluster",
          NodeVersion := types.StringValue "v1.26.0",
          Kubeconfig := types.StringValue "kubeconfig of test-cluster" } :=
  (createCluster_success_model sampleProvider emptyWorld "test-cluster" "v1.26.0"
    "kubeconfig of test-cluster" types.TfString.unknown types.TfString.unknown []
    (by decide) (by decide)).1

/-- C9: `createCluster` calls the library's create exactly once, first, with the
cluster name `N`, a wait-for-ready timeout of five minutes (300 seconds) and the
node image `"kindest/node:" ++ V`; the only call that can follow is the
kubeconfig fetch for `N`. -/
theorem createCluster_calls_create_once {σ : Type} (p : cluster.Provider σ) (w : World σ)
    (N V : String) (i kc : types.TfString) (diags : diag.Diagnostics) :
    (∃ rest : List Call,
        (createCluster p w
            { Id := i, Name := types.StringValue N, NodeVersion := types.StringValue V,
              Kubeconfig := kc } diags).2.2.calls
          = w.calls ++ Call.Create N
              [cluster.CreateOption.CreateWithWaitForReady (5 * time.Minute),
               cluster.CreateOption.CreateWithNodeImage ("kindest/node:" ++ V)] :: rest
        ∧ (rest = [] ∨ rest = [Call.KubeConfig N false]))
      ∧ defaultCreateTimeout = 5 * time.Minute
      ∧ defaultCreateTimeout = 300 * time.Second := by
  have ht : defaultCreateTimeout = 5 * time.Minute := by decide
  refine ⟨?_, ht, by decide⟩
  rw [← ht]
  cases hc : (p.Create w.lib N (createCluster.opts
      { Id := i, Name := types.StringValue N, NodeVersion := types.StringValue V,
        Kubeconfig := kc })).2 with
  | some err =>
    refine ⟨[], ?_, Or.inl rfl⟩
    rw [createCluster_of_create_error p w
      { Id := i, Name := types.StringValue N, NodeVersion := types.StringValue V,
        Kubeconfig := kc } diags err hc]
    rfl
  | none =>
    refine ⟨[Call.KubeConfig N false], ?_, Or.inr rfl⟩
    cases hk : (p.KubeConfig (p.Create w.lib N (createCluster.opts
        { Id := i, Name := types.StringValue N, NodeVersion := types.StringValue V,
          Kubeconfig := kc })).1 N false).2.2 with
    | some err =>
      rw [createCluster_of_fetch_error p w
        { Id := i, Name := types.StringValue N, NodeVersion := types.StringValue V,
          Kubeconfig := kc } diags err hc hk]
      simp [World.KubeConfig_calls, World.Create_calls, createCluster.opts,
        types.TfString.ValueString, types.StringValue]
    | none =>
      rw [createCluster_of_success p w
        { Id := i, Name := types.StringValue N, NodeVersion := types.StringValue V,
          Kubeconfig := kc } diags hc hk]
      simp [World.KubeConfig_calls, World.Create_calls, createCluster.opts,
        types.TfString.ValueString, types.StringValue]

/-- On a plan that decodes without error, `Update` writes the plan model itself
to state, whatever the state was, leaves the world as it was and adds no
diagnostic beyond those of the decoding. -/
theorem Update_writes_plan {σ : Type} (w : World σ) (req : resource.UpdateRequest)
    (resp : resource.Response)
    (hdec : diag.HasError (diag.Append resp.Diagnostics req.Plan.diags) = false) :
    Update w req resp
      = ({ Diagnostics := diag.Append resp.Diagnostics req.Plan.diags,
           State := some req.Plan.data }, w) := by
  simp [Update, hdec, tfsdk.State.Set, diag.Append_nil]

/-- C5: `Update` does change name and node_version. The prior state, carried by
the response, is the cluster `a` at `v1` with id `a/v1`; the plan keeps that id
and asks for name `a2` and node_version `v2`. `Update` adds no diagnostic,
makes no library call (the library still holds the one cluster `a`), and
writes name `a2` and node_version `v2` under the unchanged id `a/v1`. -/
theorem Update_changes_name_under_old_id :
    (Update { lib := ["a"], calls := [] }
        { Plan := { diags := [], data :=
            { Id := types.StringValue "a/v1", Name := types.StringValue "a2",
              NodeVersion := types.StringValue "v2", Kubeconfig := types.TfString.unknown } } }
        { Diagnostics := [], State := some (knownModel "a" "v1" "kc") }).1
        = { Diagnostics := [],
            State := some { Id := types.StringValue "a/v1", Name := types.StringValue "a2",
                            NodeVersion := types.StringValue "v2",
                            Kubeconfig := types.TfString.unknown } }
      ∧ (Update { lib := ["a"], calls := [] }
          { Plan := { diags := [], data :=
              { Id := types.StringValue "a/v1", Name := types.StringValue "a2",
                NodeVersion := types.StringValue "v2", Kubeconfig := types.TfString.unknown } } }
          { Diagnostics := [], State := some (knownModel "a" "v1" "kc") }).2.calls = []
      ∧ (Update { lib := ["a"], calls := [] }
          { Plan := { diags := [], data :=
              { Id := types.StringValue "a/v1", Name := types.StringValue "a2",
                NodeVersion := types.StringValue "v2", Kubeconfig := types.TfString.unknown } } }
          { Diagnostics := [], State := some (knownModel "a" "v1" "kc") }).2.lib = ["a"]
      ∧ (knownModel "a" "v1" "kc").Id = types.StringValue "a/v1"
      ∧ (knownModel "a" "v1" "kc").Name ≠ types.StringValue "a2"
      ∧ (knownModel "a" "v1" "kc").NodeVersion ≠ types.StringValue "v2" := by
  decide

/-- C7: on a prior state that decodes, `Delete` makes exactly one library call,
the delete of the state's name field with an empty kubeconfig path; it never
touches the response state; when the call returns an error it adds the error
diagnostic "failed to delete cluster" with the library's message as detail,
and when the call succeeds it adds nothing, so the response has an error
exactly when the call returned one. -/
theorem Delete_calls_library_once {σ : Type} (p : cluster.Provider σ) (w : World σ)
    (req : resource.DeleteRequest) (resp : resource.Response)
    (hdec : diag.HasError (diag.Append resp.Diagnostics req.State.diags) = false) :
    (Delete p w req resp).2.calls
        = w.calls ++ [Call.Delete req.State.data.Name.ValueString ""]
      ∧ (Delete p w req resp).1.State = resp.State
      ∧ (∀ msg : String, (p.Delete w.lib req.State.data.Name.ValueString "").2 = some msg →
          (Delete p w req resp).1.Diagnostics
            = diag.Append resp.Diagnostics req.State.diags
                ++ [diag.NewErrorDiagnostic "failed to delete cluster" msg])
      ∧ ((p.Delete w.lib req.State.data.Name.ValueString "").2 = none →
          (Delete p w req resp).1.Diagnostics = diag.Append resp.Diagnostics req.State.diags)
      ∧ (diag.HasError (Delete p w req resp).1.Diagnostics = true
          ↔ (p.Delete w.lib req.State.data.Name.ValueString "").2 ≠ none) := by
  cases hd : (p.Delete w.lib req.State.data.Name.ValueString "").2 with
  | none =>
    simp [Delete, deleteCluster, World.Delete, hdec, hd]
  | some err =>
    simp only [Delete, deleteCluster, World.Delete, hdec, hd,
      diag.AddError_of_no_error _ _ _ hdec, diag.HasError_concat]
    simp [diag.HasError, diag.NewErrorDiagnostic]

/-- C7 on a concrete input: the state's name is `c` while its id names `a`; the
sample library is asked to delete `c`. -/
theorem Delete_calls_library_once_witness :
    (Delete sampleProvider { lib := ["c", "a"], calls := [] }
        { State := { diags := [], data := { knownModel "a" "v1" "kc" with
                                             Name := types.StringValue "c" } } }
        (emptyResponse none)).2.calls
      = [] ++ [Call.Delete "c" ""] :=
  (Delete_calls_library_once sampleProvider { lib := ["c", "a"], calls := [] }
    { State := { diags := [], data := { knownModel "a" "v1" "kc" with
                                         Name := types.StringValue "c" } } }
    (emptyResponse none) (by decide)).1

/-- C4: on a prior state that decodes, `Read` reports the error diagnostic
"failed to parse cluster id" with the id as detail exactly when the id does not
contain exactly one `/`; in that case it returns with that one diagnostic
added, the state untouched and the world untouched (no library call). With
exactly one `/` the id splits in two parts, whatever they are, and the
kubeconfig fetch for the first part is the call made. -/
theorem Read_parse_error_iff {σ : Type} (p : cluster.Provider σ) (w : World σ)
    (req : resource.ReadRequest) (resp : resource.Response)
    (hdec : diag.HasError (diag.Append resp.Diagnostics req.State.diags) = false) :
    (diag.NewErrorDiagnostic "failed to parse cluster id" req.State.data.Id.ValueString
          ∈ (Read p w req resp).1.Diagnostics
        ↔ req.State.data.Id.ValueString.data.count '/' ≠ 1)
      ∧ (req.State.data.Id.ValueString.data.count '/' ≠ 1 →
          Read p w req resp
            = ({ Diagnostics := diag.Append resp.Diagnostics req.State.diags
                   ++ [diag.NewErrorDiagnostic "failed to parse cluster id"
                         req.State.data.Id.ValueString],
                 State := resp.State }, w))
      ∧ (req.State.data.Id.ValueString.data.count '/' = 1 →
          ∃ a b : String, strings.Split req.State.data.Id.ValueString '/' = [a, b]
            ∧ (Read p w req resp).2.calls = w.calls ++ [Call.KubeConfig a false]) := by
  have hnot := diag.not_mem_of_no_error _ "failed to parse cluster id"
    req.State.data.Id.ValueString hdec
  by_cases hcount : req.State.data.Id.ValueString.data.count '/' = 1
  · obtain ⟨a, b, hs⟩ := strings.Split_two_parts _ hcount
    have hne : ("failed to parse cluster id" : String)
        ≠ "failed to retrieve cluster kubeconfig" := by decide
    cases hk : (p.KubeConfig w.lib a false).2.2 with
    | some err =>
      rw [Read_of_fetch_error p w req resp a b err hdec hs hk]
      refine ⟨?_, fun h => absurd hcount h, fun _ => ⟨a, b, hs, rfl⟩⟩
      simp only [List.mem_append, List.mem_singleton, hcount, ne_eq, not_true_eq_false,
        iff_false, not_or]
      refine ⟨hnot, ?_⟩
      intro e
      exact hne (congrArg diag.Diagnostic.summary e)
    | none =>
      rw [Read_of_success p w req resp a b hdec hs hk]
      refine ⟨?_, fun h => absurd hcount h, fun _ => ⟨a, b, hs, rfl⟩⟩
      simp only [hcount, ne_eq, not_true_eq_false, iff_false]
      exact hnot
  · rw [Read_of_parse_error p w req resp hdec hcount]
    refine ⟨?_, fun _ => rfl, fun h => absurd h hcount⟩
    simp [hcount]

/-- C4 on a concrete input: the id `/`, whose two parts are empty, is accepted. -/
theorem Read_parse_error_iff_witness :
    (diag.NewErrorDiagnostic "failed to parse cluster id" "/"
          ∈ (Read sampleProvider emptyWorld
              { State := { diags := [], data := { planOf "" "" with
                                                   Id := types.StringValue "/" } } }
              (emptyResponse none)).1.Diagnostics
        ↔ ("/" : String).data.count '/' ≠ 1) :=
  (Read_parse_error_iff sampleProvider emptyWorld
    { State := { diags := [], data := { planOf "" "" with Id := types.StringValue "/" } } }
    (emptyResponse none) (by decide)).1

/-- C2: for `N` and `V` without `/`, `Read` on a state that decodes and whose id
is `N ++ "/" ++ V` reports no parse error, calls the kubeconfig fetch for `N`,
and, when that fetch succeeds, writes a state with name `N` and node_version
`V` (id unchanged, kubeconfig the fetched string): the split on `/` gives back
`[N, V]`. -/
theorem Read_recovers_name_and_version {σ : Type} (p : cluster.Provider σ) (w : World σ)
    (N V : String) (n v kc : types.TfString) (dg : diag.Diagnostics) (resp : resource.Response)
    (hN : '/' ∉ N.data) (hV : '/' ∉ V.data)
    (hdec : diag.HasError (diag.Append resp.Diagnostics dg) = false) :
    strings.Split (N ++ "/" ++ V) '/' = [N, V]
      ∧ (∀ detail : String, diag.NewErrorDiagnostic "failed to parse cluster id" detail
          ∉ (Read p w { State := { diags := dg, data :=
                { Id := types.StringValue (N ++ "/" ++ V), Name := n, NodeVersion := v,
                  Kubeconfig := kc } } } resp).1.Diagnostics)
      ∧ (Read p w { State := { diags := dg, data :=
                { Id := types.StringValue (N ++ "/" ++ V), Name := n, NodeVersion := v,
                  Kubeconfig := kc } } } resp).2.calls = w.calls ++ [Call.KubeConfig N false]
      ∧ ((p.KubeConfig w.lib N false).2.2 = none →
          (Read p w { State := { diags := dg, data :=
                { Id := types.StringValue (N ++ "/" ++ V), Name := n, NodeVersion := v,
                  Kubeconfig := kc } } } resp).1.State
            = some { Id := types.StringValue (N ++ "/" ++ V), Name := types.StringValue N,
                     NodeVersion := types.StringValue V,
                     Kubeconfig := types.StringValue (p.KubeConfig w.lib N false).2.1 }) := by
  have hs := strings.Split_compose N V hN hV
  have hne : ("failed to parse cluster id" : String)
      ≠ "failed to retrieve cluster kubeconfig" := by decide
  refine ⟨hs, ?_⟩
  cases hk : (p.KubeConfig w.lib N false).2.2 with
  | some err =>
    rw [Read_of_fetch_error p w
      { State := { diags := dg, data :=
        { Id := types.StringValue (N ++ "/" ++ V), Name := n, NodeVersion := v,
          Kubeconfig := kc } } } resp N V err hdec hs hk]
    refine ⟨?_, rfl, fun h => Option.noConfusion h⟩
    intro detail hm
    simp only [List.mem_append, List.mem_singleton] at hm
    rcases hm with hm | hm
    · exact diag.not_mem_of_no_error _ _ _ hdec hm
    · exact hne (congrArg diag.Diagnostic.summary hm)
  | none =>
    rw [Read_of_success p w
      { State := { diags := dg, data :=
        { Id := types.StringValue (N ++ "/" ++ V), Name := n, NodeVersion := v,
          Kubeconfig := kc } } } resp N V hdec hs hk]
    exact ⟨fun detail => diag.not_mem_of_no_error _ _ _ hdec, rfl, fun _ => rfl⟩

/-- C2 on a concrete input: the id `test-cluster/v1.26.0` splits back. -/
theorem Read_recovers_name_and_version_witness :
    strings.Split ("test-cluster" ++ "/" ++ "v1.26.0") '/' = ["test-cluster", "v1.26.0"] :=
  (Read_recovers_name_and_version sampleProvider { lib := ["test-cluster"], calls := [] }
    "test-cluster" "v1.26.0" types.TfString.null types.TfString.null types.TfString.null []
    (emptyResponse none) (by decide) (by decide) (by decide)).1

/-- C10: two runs of `Read` on prior states with the same id `i`, whatever their
name, node_version and kubeconfig, each run with its own response (same
diagnostics, any state, so in particular its own prior state), on the same
world and with the same decoding diagnostics: the two runs end in the same
world (same library state, same call log) and the same diagnostics, and either
neither writes its state or both write the same model, whose id is `i`.
Moreover when decoding reports no error and the id splits in two parts `a` and
`b`, the one call made is the kubeconfig fetch for `a`, and when that fetch
succeeds both runs write id `i`, name `a`, node_version `b` and the fetched
kubeconfig. -/
theorem Read_depends_on_id_only {σ : Type} (p : cluster.Provider σ) (w : World σ)
    (i n1 v1 k1 n2 v2 k2 : types.TfString) (dg D : diag.Diagnostics)
    (S1 S2 : tfsdk.State) :
    (Read p w { State := { diags := dg, data :=
      { Id := i, Name := n1, NodeVersion := v1, Kubeconfig := k1 } } }
      { Diagnostics := D, State := S1 }).2
        = (Read p w { State := { diags := dg, data :=
          { Id := i, Name := n2, NodeVersion := v2, Kubeconfig := k2 } } }
          { Diagnostics := D, State := S2 }).2
      ∧ (Read p w { State := { diags := dg, data :=
        { Id := i, Name := n1, NodeVersion := v1, Kubeconfig := k1 } } }
        { Diagnostics := D, State := S1 }).1.Diagnostics
        = (Read p w { State := { diags := dg, data :=
          { Id := i, Name := n2, NodeVersion := v2, Kubeconfig := k2 } } }
          { Diagnostics := D, State := S2 }).1.Diagnostics
      ∧ (((Read p w { State := { diags := dg, data :=
            { Id := i, Name := n1, NodeVersion := v1, Kubeconfig := k1 } } }
            { Diagnostics := D, State := S1 }).1.State = S1
            ∧ (Read p w { State := { diags := dg, data :=
              { Id := i, Name := n2, NodeVersion := v2, Kubeconfig := k2 } } }
              { Diagnostics := D, State := S2 }).1.State = S2)
          ∨ ∃ m : ClusterResourceModel,
              (Read p w { State := { diags := dg, data :=
                { Id := i, Name := n1, NodeVersion := v1, Kubeconfig := k1 } } }
                { Diagnostics := D, State := S1 }).1.State = some m
              ∧ (Read p w { State := { diags := dg, data :=
                { Id := i, Name := n2, NodeVersion := v2, Kubeconfig := k2 } } }
                { Diagnostics := D, State := S2 }).1.State = some m
              ∧ m.Id = i)
      ∧ (diag.HasError (diag.Append D dg) = false →
          ∀ a b : String, strings.Split i.ValueString '/' = [a, b] →
            (Read p w { State := { diags := dg, data :=
              { Id := i, Name := n1, NodeVersion := v1, Kubeconfig := k1 } } }
              { Diagnostics := D, State := S1 }).2.calls
                = w.calls ++ [Call.KubeConfig a false]
              ∧ ((p.KubeConfig w.lib a false).2.2 = none →
                  (Read p w { State := { diags := dg, data :=
                    { Id := i, Name := n1, NodeVersion := v1, Kubeconfig := k1 } } }
                    { Diagnostics := D, State := S1 }).1.State
                    = some { Id := i, Name := types.StringValue a,
                             NodeVersion := types.StringValue b,
                             Kubeconfig :=
                               types.StringValue (p.KubeConfig w.lib a false).2.1 }
                  ∧ (Read p w { State := { diags := dg, data :=
                    { Id := i, Name := n2, NodeVersion := v2, Kubeconfig := k2 } } }
                    { Diagnostics := D, State := S2 }).1.State
                    = some { Id := i, Name := types.StringValue a,
                             NodeVersion := types.StringValue b,
                             Kubeconfig :=
                               types.StringValue (p.KubeConfig w.lib a false).2.1 })) := by
  cases hdec : diag.HasError (diag.Append D dg) with
  | true =>
    rw [Read_of_decode_error p w _ { Diagnostics := D, State := S1 } hdec,
      Read_of_decode_error p w _ { Diagnostics := D, State := S2 } hdec]
    exact ⟨rfl, rfl, Or.inl ⟨rfl, rfl⟩, fun h => Bool.noConfusion h⟩
  | false =>
    by_cases hcount : i.ValueString.data.count '/' = 1
    · obtain ⟨a, b, hs⟩ := strings.Split_two_parts _ hcount
      cases hk : (p.KubeConfig w.lib a false).2.2 with
      | some err =>
        rw [Read_of_fetch_error p w _ { Diagnostics := D, State := S1 } a b err hdec hs hk,
          Read_of_fetch_error p w _ { Diagnostics := D, State := S2 } a b err hdec hs hk]
        refine ⟨rfl, rfl, Or.inl ⟨rfl, rfl⟩, ?_⟩
        intro _ a2 b2 hs2
        rw [hs] at hs2
        obtain ⟨rfl, rfl⟩ : a = a2 ∧ b = b2 := by simpa using hs2
        refine ⟨rfl, fun h => ?_⟩
        rw [hk] at h
        exact Option.noConfusion h
      | none =>
        rw [Read_of_success p w _ { Diagnostics := D, State := S1 } a b hdec hs hk,
          Read_of_success p w _ { Diagnostics := D, State := S2 } a b hdec hs hk]
        refine ⟨rfl, rfl, Or.inr ⟨_, rfl, rfl, rfl⟩, ?_⟩
        intro _ a2 b2 hs2
        rw [hs] at hs2
        obtain ⟨rfl, rfl⟩ : a = a2 ∧ b = b2 := by simpa using hs2
        exact ⟨rfl, fun _ => ⟨rfl, rfl⟩⟩
    · rw [Read_of_parse_error p w _ { Diagnostics := D, State := S1 } hdec hcount,
        Read_of_parse_error p w _ { Diagnostics := D, State := S2 } hdec hcount]
      refine ⟨rfl, rfl, Or.inl ⟨rfl, rfl⟩, ?_⟩
      intro _ a2 b2 hs2
      have hl := strings.Split_length i.ValueString '/'
      rw [hs2] at hl
      simp at hl
      exact absurd hl hcount

/-- C10 on a concrete input: the prior state names the cluster `zzz` at `v9`
under the id `a/v1`; `Read` fetches the kubeconfig of `a` and writes name `a`
and node_version `v1`. -/
theorem Read_depends_on_id_only_witness :
    (Read sampleProvider { lib := ["a"], calls := [] }
        { State := { diags := [], data :=
            { Id := types.StringValue "a/v1", Name := types.StringValue "zzz",
              NodeVersion := types.StringValue "v9", Kubeconfig := types.StringValue "old" } } }
        { Diagnostics := [], State := some (knownModel "zzz" "v9" "old") }).2.calls
        = [] ++ [Call.KubeConfig "a" false]
      ∧ ((sampleProvider.KubeConfig ["a"] "a" false).2.2 = none →
          (Read sampleProvider { lib := ["a"], calls := [] }
            { State := { diags := [], data :=
                { Id := types.StringValue "a/v1", Name := types.StringValue "zzz",
                  NodeVersion := types.StringValue "v9",
                  Kubeconfig := types.StringValue "old" } } }
            { Diagnostics := [], State := some (knownModel "zzz" "v9" "old") }).1.State
            = some { Id := types.StringValue "a/v1", Name := types.StringValue "a",
                     NodeVersion := types.StringValue "v1",
                     Kubeconfig :=
                       types.StringValue (sampleProvider.KubeConfig ["a"] "a" false).2.1 }
          ∧ (Read sampleProvider { lib := ["a"], calls := [] }
            { State := { diags := [], data :=
                { Id := types.StringValue "a/v1", Name := types.StringValue "a",
                  NodeVersion := types.StringValue "v1",
                  Kubeconfig := types.StringValue "kc" } } }
            { Diagnostics := [], State := some (knownModel "a" "v1" "kc") }).1.State
            = some { Id := types.StringValue "a/v1", Name := types.StringValue "a",
                     NodeVersion := types.StringValue "v1",
                     Kubeconfig :=
                       types.StringValue (sampleProvider.KubeConfig ["a"] "a" false).2.1 }) :=
  (Read_depends_on_id_only sampleProvider { lib := ["a"], calls := [] }
    (types.StringValue "a/v1") (types.StringValue "zzz") (types.StringValue "v9")
    (types.StringValue "old") (types.StringValue "a") (types.StringValue "v1")
    (types.StringValue "kc") [] [] (some (knownModel "zzz" "v9" "old"))
    (some (knownModel "a" "v1" "kc"))).2.2.2 (by decide) "a" "v1" (by decide)

/-- C3: on a library that validates its input as KIND does (a create call
succeeds only for a name and an image tag without `/`), the id that a
successful create makes `createCluster` build is `N ++ "/" ++ V` and its split
on `/` is exactly `[N, V]`; two successful creates that build the same id were
given the same name and the same node version; and when the create call fails
no id is built (the id field stays as it was). -/
theorem composite_id_unique {σ : Type} (p : cluster.Provider σ)
    (hlib : cluster.Provider.ValidatesInput p)
    (w1 w2 : World σ) (N1 V1 N2 V2 : String) (i1 kc1 i2 kc2 : types.TfString)
    (g1 g2 : diag.Diagnostics) :
    ((p.Create w1.lib N1 (createCluster.opts
          { Id := i1, Name := types.StringValue N1, NodeVersion := types.StringValue V1,
            Kubeconfig := kc1 })).2 = none →
        (createCluster p w1
            { Id := i1, Name := types.StringValue N1, NodeVersion := types.StringValue V1,
              Kubeconfig := kc1 } g1).1.Id = types.StringValue (N1 ++ "/" ++ V1)
        ∧ strings.Split (createCluster p w1
              { Id := i1, Name := types.StringValue N1, NodeVersion := types.StringValue V1,
                Kubeconfig := kc1 } g1).1.Id.ValueString '/' = [N1, V1])
      ∧ ((p.Create w1.lib N1 (createCluster.opts
            { Id := i1, Name := types.StringValue N1, NodeVersion := types.StringValue V1,
              Kubeconfig := kc1 })).2 = none →
          (p.Create w2.lib N2 (createCluster.opts
              { Id := i2, Name := types.StringValue N2, NodeVersion := types.StringValue V2,
                Kubeconfig := kc2 })).2 = none →
          (createCluster p w1
              { Id := i1, Name := types.StringValue N1, NodeVersion := types.StringValue V1,
                Kubeconfig := kc1 } g1).1.Id
            = (createCluster p w2
                { Id := i2, Name := types.StringValue N2, NodeVersion := types.StringValue V2,
                  Kubeconfig := kc2 } g2).1.Id →
          N1 = N2 ∧ V1 = V2)
      ∧ (∀ err : String,
          (p.Create w1.lib N1 (createCluster.opts
              { Id := i1, Name := types.StringValue N1, NodeVersion := types.StringValue V1,
                Kubeconfig := kc1 })).2 = some err →
          (createCluster p w1
              { Id := i1, Name := types.StringValue N1, NodeVersion := types.StringValue V1,
                Kubeconfig := kc1 } g1).1.Id = i1) := by
  have id_of : ∀ (w : World σ) (N V : String) (i kc : types.TfString) (g : diag.Diagnostics),
      (p.Create w.lib N (createCluster.opts
        { Id := i, Name := types.StringValue N, NodeVersion := types.StringValue V,
          Kubeconfig := kc })).2 = none →
      (createCluster p w
        { Id := i, Name := types.StringValue N, NodeVersion := types.StringValue V,
          Kubeconfig := kc } g).1.Id = types.StringValue (N ++ "/" ++ V) := by
    intro w N V i kc g hc
    cases hk : (p.KubeConfig (p.Create w.lib N (createCluster.opts
        { Id := i, Name := types.StringValue N, NodeVersion := types.StringValue V,
          Kubeconfig := kc })).1 N false).2.2 with
    | some err =>
      rw [createCluster_of_fetch_error p w
        { Id := i, Name := types.StringValue N, NodeVersion := types.StringValue V,
          Kubeconfig := kc } g err hc hk]
      rfl
    | none =>
      rw [createCluster_of_success p w
        { Id := i, Name := types.StringValue N, NodeVersion := types.StringValue V,
          Kubeconfig := kc } g hc hk]
      rfl
  refine ⟨?_, ?_, ?_⟩
  · intro hc1
    have hv := hlib w1.lib N1 V1 defaultCreateTimeout hc1
    rw [id_of w1 N1 V1 i1 kc1 g1 hc1, types.ValueString_StringValue]
    exact ⟨rfl, strings.Split_compose N1 V1 hv.1 hv.2⟩
  · intro hc1 hc2 h
    have hv1 := hlib w1.lib N1 V1 defaultCreateTimeout hc1
    have hv2 := hlib w2.lib N2 V2 defaultCreateTimeout hc2
    rw [id_of w1 N1 V1 i1 kc1 g1 hc1, id_of w2 N2 V2 i2 kc2 g2 hc2] at h
    have h2 : N1 ++ "/" ++ V1 = N2 ++ "/" ++ V2 := by
      simpa [types.StringValue] using h
    exact compose_injective N1 V1 N2 V2 hv1.1 hv2.1 h2
  · intro err hc1
    rw [createCluster_of_create_error p w1
      { Id := i1, Name := types.StringValue N1, NodeVersion := types.StringValue V1,
        Kubeconfig := kc1 } g1 err hc1]

/-- C3 on a concrete input: on the sample library, which validates its input,
the id built for (`test-cluster`, `v1.26.0`) splits into exactly these two
parts. -/
theorem composite_id_unique_witness :
    (createCluster sampleProvider emptyWorld (planOf "test-cluster" "v1.26.0") []).1.Id
        = types.StringValue ("test-cluster" ++ "/" ++ "v1.26.0")
      ∧ strings.Split (createCluster sampleProvider emptyWorld
          (planOf "test-cluster" "v1.26.0") []).1.Id.ValueString '/'
        = ["test-cluster", "v1.26.0"] :=
  (composite_id_unique sampleProvider sampleProvider_validates emptyWorld emptyWorld
    "test-cluster" "v1.26.0" "other" "v1.27.0"
    types.TfString.unknown types.TfString.unknown types.TfString.unknown types.TfString.unknown
    [] []).1 (by decide)

/-- C6: handed a response without error and with no state, `Create` leaves a
state written exactly when the plan decodes without error, the library's create
call succeeds and the kubeconfig fetch that follows succeeds. When the create
call fails it adds the one error "failed to create cluster" with the library's
message, the create is the only library call, and the state is as it was; when
the fetch fails after a successful create it adds the one error "failed to
retrieve cluster kubeconfig" with the library's message, and the state is as
it was. -/
theorem Create_writes_state_iff {σ : Type} (p : cluster.Provider σ) (w : World σ)
    (req : resource.CreateRequest) (resp : resource.Response)
    (hclean : diag.HasError resp.Diagnostics = false) (hfresh : resp.State = none) :
    ((∃ m : ClusterResourceModel, (Create p w req resp).1.State = some m)
        ↔ (diag.HasError req.Plan.diags = false
            ∧ (p.Create w.lib req.Plan.data.Name.ValueString
                (createCluster.opts req.Plan.data)).2 = none
            ∧ (p.KubeConfig (p.Create w.lib req.Plan.data.Name.ValueString
                (createCluster.opts req.Plan.data)).1
                req.Plan.data.Name.ValueString false).2.2 = none))
      ∧ (∀ err : String, diag.HasError req.Plan.diags = false →
          (p.Create w.lib req.Plan.data.Name.ValueString
            (createCluster.opts req.Plan.data)).2 = some err →
          Create p w req resp
            = ({ Diagnostics := diag.Append resp.Diagnostics req.Plan.diags
                   ++ [diag.NewErrorDiagnostic "failed to create cluster" err],
                 State := resp.State },
               { lib := (p.Create w.lib req.Plan.data.Name.ValueString
                          (createCluster.opts req.Plan.data)).1,
                 calls := w.calls ++ [Call.Create req.Plan.data.Name.ValueString
                          (createCluster.opts req.Plan.data)] }))
      ∧ (∀ err : String, diag.HasError req.Plan.diags = false →
          (p.Create w.lib req.Plan.data.Name.ValueString
            (createCluster.opts req.Plan.data)).2 = none →
          (p.KubeConfig (p.Create w.lib req.Plan.data.Name.ValueString
            (createCluster.opts req.Plan.data)).1
            req.Plan.data.Name.ValueString false).2.2 = some err →
          (Create p w req resp).1
            = { Diagnostics := diag.Append resp.Diagnostics req.Plan.diags
                  ++ [diag.NewErrorDiagnostic "failed to retrieve cluster kubeconfig" err],
                State := resp.State }
          ∧ (Create p w req resp).2.calls
            = w.calls ++ [Call.Create req.Plan.data.Name.ValueString
                            (createCluster.opts req.Plan.data),
                          Call.KubeConfig req.Plan.data.Name.ValueString false]) := by
  have hbase : diag.HasError (diag.Append resp.Diagnostics req.Plan.diags)
      = diag.HasError req.Plan.diags := by
    rw [diag.HasError_Append, hclean, Bool.false_or]
  cases hdec : diag.HasError req.Plan.diags with
  | true =>
    rw [hdec] at hbase
    have e : Create p w req resp
        = ({ Diagnostics := diag.Append resp.Diagnostics req.Plan.diags,
             State := resp.State }, w) := by
      simp only [Create, hbase, if_true]
    rw [e]
    simp [hfresh]
  | false =>
    rw [hdec] at hbase
    cases hc : (p.Create w.lib req.Plan.data.Name.ValueString
        (createCluster.opts req.Plan.data)).2 with
    | some err =>
      have e : Create p w req resp
          = ({ Diagnostics := diag.Append resp.Diagnostics req.Plan.diags
                 ++ [diag.NewErrorDiagnostic "failed to create cluster" err],
               State := resp.State },
             { lib := (p.Create w.lib req.Plan.data.Name.ValueString
                        (createCluster.opts req.Plan.data)).1,
               calls := w.calls ++ [Call.Create req.Plan.data.Name.ValueString
                        (createCluster.opts req.Plan.data)] }) := by
        simp only [Create, hbase, createCluster_of_create_error p w _ _ err hc,
          diag.HasError_concat_error, diag.AddError_of_no_error _ _ _ hbase, if_true,
          Bool.false_eq_true, if_false]
        rfl
      rw [e]
      simp [hfresh]
    | none =>
      cases hk : (p.KubeConfig (p.Create w.lib req.Plan.data.Name.ValueString
          (createCluster.opts req.Plan.data)).1 req.Plan.data.Name.ValueString false).2.2 with
      | some err =>
        have e : Create p w req resp
            = ({ Diagnostics := diag.Append resp.Diagnostics req.Plan.diags
                   ++ [diag.NewErrorDiagnostic "failed to retrieve cluster kubeconfig" err],
                 State := resp.State },
               (World.KubeConfig p (World.Create p w req.Plan.data.Name.ValueString
                 (createCluster.opts req.Plan.data)).2
                 req.Plan.data.Name.ValueString false).2) := by
          simp only [Create, hbase, createCluster_of_fetch_error p w _ _ err hc hk,
            diag.HasError_concat_error, diag.AddError_of_no_error _ _ _ hbase, if_true,
            Bool.false_eq_true, if_false]
        rw [e]
        simp [hfresh, World.KubeConfig_calls, World.Create_calls]
      | none =>
        have e : (Create p w req resp).1.State
            = some { req.Plan.data with
                Id := types.StringValue (req.Plan.data.Name.ValueString ++ "/"
                        ++ req.Plan.data.NodeVersion.ValueString),
                Kubeconfig := types.StringValue
                  (p.KubeConfig (p.Create w.lib req.Plan.data.Name.ValueString
                    (createCluster.opts req.Plan.data)).1
                    req.Plan.data.Name.ValueString false).2.1 } := by
          simp only [Create, hbase, createCluster_of_success p w _ _ hc hk, tfsdk.State.Set]
          rfl
        rw [e]
        simp

/-- C6 on a concrete input: the sample library already has a cluster `a`, so
the create call fails and `Create` leaves no state. -/
theorem Create_writes_state_iff_witness :
    ¬ (∃ m : ClusterResourceModel,
        (Create sampleProvider { lib := ["a"], calls := [] }
          { Plan := { diags := [], data := planOf "a" "v1" } } (emptyResponse none)).1.State
          = some m) := by
  rw [(Create_writes_state_iff sampleProvider { lib := ["a"], calls := [] }
    { Plan := { diags := [], data := planOf "a" "v1" } } (emptyResponse none)
    (by decide) (by decide)).1]
  decide

/-- C8: for `N` and `V` without `/` and a library in which the create call for
`N` succeeds and the kubeconfig fetch for `N` succeeds with the same string `k`
at creation and at refresh: `ImportState` of the id `N ++ "/" ++ V` into the
empty state writes a state whose id is that string and whose other three
attributes are null; `Create` for the plan (`N`, `V`) writes id, name,
node_version and kubeconfig `k`; and `Read` on the imported state writes a
state equal to the one `Create` wrote. -/
theorem import_then_Read_matches_Create {σ : Type} (p : cluster.Provider σ)
    (wc wr : World σ) (N V k : String) (i kc : types.TfString) (dgc dgr : diag.Diagnostics)
    (respC respI respR : resource.Response)
    (hN : '/' ∉ N.data) (hV : '/' ∉ V.data)
    (hc : (p.Create wc.lib N (createCluster.opts
            { Id := i, Name := types.StringValue N, NodeVersion := types.StringValue V,
              Kubeconfig := kc })).2 = none)
    (hk : (p.KubeConfig (p.Create wc.lib N (createCluster.opts
            { Id := i, Name := types.StringValue N, NodeVersion := types.StringValue V,
              Kubeconfig := kc })).1 N false).2 = (k, none))
    (hdecC : diag.HasError (diag.Append respC.Diagnostics dgc) = false)
    (hI : respI.State = none)
    (hdecR : diag.HasError (diag.Append respR.Diagnostics dgr) = false)
    (hkr : (p.KubeConfig wr.lib N false).2 = (k, none)) :
    (ImportState { ID := N ++ "/" ++ V } respI).State
        = some { Id := types.StringValue (N ++ "/" ++ V), Name := types.TfString.null,
                 NodeVersion := types.TfString.null, Kubeconfig := types.TfString.null }
      ∧ (Create p wc { Plan := { diags := dgc, data :=
            { Id := i, Name := types.StringValue N, NodeVersion := types.StringValue V,
              Kubeconfig := kc } } } respC).1.State
          = some { Id := types.StringValue (N ++ "/" ++ V), Name := types.StringValue N,
                   NodeVersion := types.StringValue V, Kubeconfig := types.StringValue k }
      ∧ (∃ m : ClusterResourceModel,
          (ImportState { ID := N ++ "/" ++ V } respI).State = some m
          ∧ (Read p wr { State := { diags := dgr, data := m } } respR).1.State
            = (Create p wc { Plan := { diags := dgc, data :=
                { Id := i, Name := types.StringValue N, NodeVersion := types.StringValue V,
                  Kubeconfig := kc } } } respC).1.State) := by
  have himp : (ImportState { ID := N ++ "/" ++ V } respI).State
      = some { Id := types.StringValue (N ++ "/" ++ V), Name := types.TfString.null,
               NodeVersion := types.TfString.null, Kubeconfig := types.TfString.null } := by
    simp only [ImportState, resource.ImportStatePassthroughID, tfsdk.State.SetAttributeId, hI]
  have hcreate : (Create p wc { Plan := { diags := dgc, data :=
        { Id := i, Name := types.StringValue N, NodeVersion := types.StringValue V,
          Kubeconfig := kc } } } respC).1.State
      = some { Id := types.StringValue (N ++ "/" ++ V), Name := types.StringValue N,
               NodeVersion := types.StringValue V, Kubeconfig := types.StringValue k } := by
    have e := createCluster_of_success p wc
      { Id := i, Name := types.StringValue N, NodeVersion := types.StringValue V,
        Kubeconfig := kc } (diag.Append respC.Diagnostics dgc) hc (congrArg Prod.snd hk)
    have hk1 := congrArg Prod.fst hk
    simp only [Create, hdecC, e, tfsdk.State.Set]
    simp [types.ValueString_StringValue] at hk1 ⊢
    rw [hk1]
  have hs : strings.Split
      (({ State := { diags := dgr, data :=
            { Id := types.StringValue (N ++ "/" ++ V), Name := types.TfString.null,
              NodeVersion := types.TfString.null, Kubeconfig := types.TfString.null } } } :
          resource.ReadRequest).State.data.Id.ValueString) '/' = [N, V] :=
    strings.Split_compose N V hN hV
  have hread := Read_of_success p wr
    { State := { diags := dgr, data :=
        { Id := types.StringValue (N ++ "/" ++ V), Name := types.TfString.null,
          NodeVersion := types.TfString.null, Kubeconfig := types.TfString.null } } } respR N V
    hdecR hs (congrArg Prod.snd hkr)
  refine ⟨himp, hcreate, _, himp, ?_⟩
  rw [hcreate, hread]
  have hk1 : (p.KubeConfig wr.lib N false).2.1 = k := congrArg Prod.fst hkr
  simp [hk1]

/-- C8 on a concrete input: on the sample library, `test-cluster` at `v1.26.0`
is created from the empty world; the import of `test-cluster/v1.26.0` writes
the id alone. -/
theorem import_then_Read_matches_Create_witness :
    (ImportState { ID := "test-cluster" ++ "/" ++ "v1.26.0" } (emptyResponse none)).State
        = some { Id := types.StringValue ("test-cluster" ++ "/" ++ "v1.26.0"),
                 Name := types.TfString.null, NodeVersion := types.TfString.null,
                 Kubeconfig := types.TfString.null }
      ∧ (Create sampleProvider emptyWorld
          { Plan := { diags := [], data :=
              { Id := types.TfString.unknown, Name := types.StringValue "test-cluster",
                NodeVersion := types.StringValue "v1.26.0",
                Kubeconfig := types.TfString.unknown } } } (emptyResponse none)).1.State
          = some { Id := types.StringValue ("test-cluster" ++ "/" ++ "v1.26.0"),
                   Name := types.StringValue "test-cluster",
                   NodeVersion := types.StringValue "v1.26.0",
                   Kubeconfig := types.StringValue "kubeconfig of test-cluster" }
      ∧ (∃ m : ClusterResourceModel,
          (ImportState { ID := "test-cluster" ++ "/" ++ "v1.26.0" } (emptyResponse none)).State
            = some m
          ∧ (Read sampleProvider { lib := ["test-cluster"], calls := [] }
              { State := { diags := [], data := m } }
              { Diagnostics := [], State := some m }).1.State
            = (Create sampleProvider emptyWorld
                { Plan := { diags := [], data :=
                    { Id := types.TfString.unknown, Name := types.StringValue "test-cluster",
                      NodeVersion := types.StringValue "v1.26.0",
                      Kubeconfig := types.TfString.unknown } } }
                (emptyResponse none)).1.State) := by
  obtain ⟨h1, h2, m, h3, h4⟩ := import_then_Read_matches_Create sampleProvider emptyWorld
    { lib := ["test-cluster"], calls := [] } "test-cluster" "v1.26.0"
    "kubeconfig of test-cluster" types.TfString.unknown types.TfString.unknown [] []
    (emptyResponse none) (emptyResponse none)
    { Diagnostics := [], State := (ImportState { ID := "test-cluster" ++ "/" ++ "v1.26.0" }
        (emptyResponse none)).State }
    (by decide) (by decide) (by decide) (by decide) (by decide) rfl (by decide) (by decide)
  refine ⟨h1, h2, m, h3, ?_⟩
  rw [h3] at h4
  exact h4

end Kind
